import Mathlib

/-!
Verification development for the RedisPy repository: a shallow embedding of
the wire-protocol codec (resp.py), the CRC64 sink (crc.py), the snapshot
codec (save_rdb.py / rdbparser.py) and the command handlers (server.py),
together with theorems settling the claims about them.

Modelling conventions:
* Python `bytes` are `List Nat`, each element a byte value 0..255.
* Python `str` is a Lean `String` where the server handlers manipulate text,
  and a `List Nat` of UTF-8 bytes where the snapshot codec serialises it
  (the UTF-8 encoding is a bijection onto its image, so byte-level
  round-trips are equivalent to str-level ones).
* Python dicts are insertion-ordered association lists.
* Python exceptions are `Except String`.
* Machine integers are `Nat`/`Int` with explicit `% 2 ^ 64` where the CRC
  folds bytes.
-/

set_option maxRecDepth 10000

/-! ## Byte-level helpers shared by the embeddings -/

/-- Little-endian byte serialisation of `t` on `n` bytes,
as produced by Python `struct.pack` with formats `<Q` / `<I`. -/
def leBytes (n : Nat) (t : Nat) : List Nat :=
  match n with
  | 0 => []
  | m + 1 => t % 256 :: leBytes m (t / 256)

/-- Little-endian byte deserialisation, as `struct.unpack` with `<Q` / `<I`. -/
def leVal (bs : List Nat) : Nat :=
  match bs with
  | [] => 0
  | b :: rest => b + 256 * leVal rest

/-- Big-endian serialisation of `t` on `n` bytes (`struct.pack '>Q'` / `'>I'`). -/
def beBytes (n : Nat) (t : Nat) : List Nat :=
  match n with
  | 0 => []
  | m + 1 => beBytes m (t / 256) ++ [t % 256]

/-- Big-endian deserialisation (`struct.unpack '>Q'` / `'>I'`). -/
def beVal (bs : List Nat) : Nat :=
  bs.foldl (fun acc b => acc * 256 + b) 0

/-! ## crc.py — the CRC-64 (ECMA-182) function and the file wrapper

`crcmod.predefined.mkPredefinedCrcFun('crc-64')` builds the non-reflected
CRC-64/ECMA-182 function: polynomial 0x42F0E1EBA9EA3693, initial value 0,
xor-out 0.  Because the xor-out is 0 the generated function simply continues
the fold from the `crc` argument it is given. -/

/-- The ECMA-182 CRC-64 polynomial (low 64 bits of 0x142F0E1EBA9EA3693). -/
def crc64Poly : Nat := 0x42F0E1EBA9EA3693

/-- One MSB-first CRC shift step on a 64-bit register. -/
def crcShift (c : Nat) : Nat :=
  if c.testBit 63 then ((c <<< 1) ^^^ crc64Poly) % 2 ^ 64 else (c <<< 1) % 2 ^ 64

/-- Fold one input byte into the CRC register (MSB-first, table-free form). -/
def crcFoldByte (c b : Nat) : Nat :=
  Nat.iterate crcShift 8 (c ^^^ (b <<< 56))

/-- `crc64_func(data, crc)`: fold the bytes of `data` starting from register
value `crc`.  `crc64(data)` of the source is `crc64 data 0`. -/
def crc64 (data : List Nat) (crc : Nat) : Nat :=
  data.foldl crcFoldByte crc

/-- State of `CRC64FileWrapper`: the running checksum together with the bytes
written through to the wrapped file object. -/
structure CRC64FileWrapper where
  crc : Nat
  fileBytes : List Nat
deriving Repr, DecidableEq

/-- `CRC64FileWrapper.__init__`: checksum register starts at 0. -/
def CRC64FileWrapper.init : CRC64FileWrapper := ⟨0, []⟩

/-- `CRC64FileWrapper.write`: update the checksum with the data and pass the
bytes through unchanged. -/
def CRC64FileWrapper.write (w : CRC64FileWrapper) (data : List Nat) : CRC64FileWrapper :=
  ⟨crc64 data w.crc, w.fileBytes ++ data⟩

/-- `CRC64FileWrapper.get_crc64`. -/
def CRC64FileWrapper.getCrc64 (w : CRC64FileWrapper) : Nat := w.crc

/-- Write a list of chunks through the wrapper in order. -/
def CRC64FileWrapper.writeAll (w : CRC64FileWrapper) (chunks : List (List Nat)) :
    CRC64FileWrapper :=
  chunks.foldl CRC64FileWrapper.write w

theorem crc64_append (a b : List Nat) (c : Nat) :
    crc64 (a ++ b) c = crc64 b (crc64 a c) := by
  simp [crc64, List.foldl_append]

theorem writeAll_crc (chunks : List (List Nat)) (w : CRC64FileWrapper) :
    (w.writeAll chunks).crc = crc64 chunks.flatten w.crc ∧
      (w.writeAll chunks).fileBytes = w.fileBytes ++ chunks.flatten := by
  induction chunks generalizing w with
  | nil => simp [CRC64FileWrapper.writeAll, crc64]
  | cons chunk rest ih =>
    have h := ih (w.write chunk)
    simpa [CRC64FileWrapper.writeAll, CRC64FileWrapper.write, crc64_append,
      List.append_assoc] using h

/-- C7: writing a byte sequence through the CRC64 sink in any partition into
consecutive chunks yields the same final checksum as one shot, and that
checksum is CRC64 of the concatenated bytes with initial value 0; the sink
passes the bytes through unchanged. -/
theorem crc64_sink_partition_invariance (chunks : List (List Nat)) :
    (CRC64FileWrapper.init.writeAll chunks).getCrc64 = crc64 chunks.flatten 0 ∧
      (CRC64FileWrapper.init.writeAll chunks).getCrc64 =
        (CRC64FileWrapper.init.write chunks.flatten).getCrc64 ∧
      (CRC64FileWrapper.init.writeAll chunks).fileBytes = chunks.flatten := by
  have h := writeAll_crc chunks CRC64FileWrapper.init
  have h1 : (CRC64FileWrapper.init.writeAll chunks).getCrc64 = crc64 chunks.flatten 0 := by
    rw [CRC64FileWrapper.getCrc64, h.1]; rfl
  have h2 : (CRC64FileWrapper.init.write chunks.flatten).getCrc64 = crc64 chunks.flatten 0 := rfl
  exact ⟨h1, by rw [h1, h2], by rw [h.2]; rfl⟩

/-! ## Python dict operations on insertion-ordered association lists -/

/-- `d.get(k)` / `d[k]` lookup in a Python dict. -/
def pyGet {α β : Type} [DecidableEq α] (d : List (α × β)) (k : α) : Option β :=
  match d with
  | [] => none
  | (k', v) :: rest => if k' = k then some v else pyGet rest k

/-- `d[k] = v`: replace in place if the key exists, else append (insertion
order of Python dicts). -/
def pySet {α β : Type} [DecidableEq α] (d : List (α × β)) (k : α) (v : β) : List (α × β) :=
  match d with
  | [] => [(k, v)]
  | (k', v') :: rest => if k' = k then (k', v) :: rest else (k', v') :: pySet rest k v

/-- `d.pop(k, None)`: drop the entry for `k` when present. -/
def pyPop {α β : Type} [DecidableEq α] (d : List (α × β)) (k : α) : List (α × β) :=
  match d with
  | [] => []
  | (k', v') :: rest => if k' = k then rest else (k', v') :: pyPop rest k

/-! ## save_rdb.py — snapshot writer

Keys and string payloads are modelled by their UTF-8 byte sequences
(`encode_string_for_write` UTF-8-encodes, `read_string` UTF-8-decodes, and
the encoding is injective, so the byte level is faithful). -/

/-- The value union stored in the keyspace: Python str / list / set.
A parsed set is represented by its members in read order. -/
inductive RdbValue where
  | vstr : List Nat → RdbValue
  | vlist : List (List Nat) → RdbValue
  | vset : List (List Nat) → RdbValue
deriving Repr, DecidableEq

/-- `encode_length_for_write`. -/
def encodeLengthForWrite (length : Nat) : List Nat :=
  if length ≤ 63 then [length]
  else if length ≤ 16383 then
    [64 ||| ((length >>> 8) &&& 0x3F), length &&& 0xFF]
  else [128] ++ beBytes 4 length

/-- `encode_string_for_write`. -/
def encodeStringForWrite (s : List Nat) : List Nat :=
  encodeLengthForWrite s.length ++ s

/-- `encode_expire_ms_for_write`: opcode 0xFC then 8 little-endian bytes. -/
def encodeExpireMsForWrite (t : Nat) : List Nat :=
  [0xFC] ++ leBytes 8 t

/-- `encode_list_for_write`: size then the encoded elements. -/
def encodeListForWrite (l : List (List Nat)) : List Nat :=
  encodeLengthForWrite l.length ++ l.flatMap encodeStringForWrite

/-- `encode_set_for_write`: note the leading 0x02 value-type flag the source
emits inside the value body (in addition to the type byte `write_rdb` has
already written before the key). -/
def encodeSetForWrite (s : List (List Nat)) : List Nat :=
  [0x02] ++ encodeLengthForWrite s.length ++ s.flatMap encodeStringForWrite

/-- One key/value record as emitted by the loop in `write_rdb`. -/
def rdbRecordBytes (expiryStore : List (List Nat × Nat)) (kv : List Nat × RdbValue) :
    List Nat :=
  (match pyGet expiryStore kv.1 with
   | some t => encodeExpireMsForWrite t
   | none => []) ++
  (match kv.2 with
   | .vstr s => [0x00] ++ encodeStringForWrite kv.1 ++ encodeStringForWrite s
   | .vlist l => [0x01] ++ encodeStringForWrite kv.1 ++ encodeListForWrite l
   | .vset s => [0x02] ++ encodeStringForWrite kv.1 ++ encodeSetForWrite s)

/-- The nine ASCII bytes of the magic header `REDIS0011`. -/
def rdbHeader : List Nat := [82, 69, 68, 73, 83, 48, 48, 49, 49]

/-- UTF-8 bytes of the metadata name `redis-ver`. -/
def redisVerName : List Nat := [114, 101, 100, 105, 115, 45, 118, 101, 114]

/-- UTF-8 bytes of the metadata value `6.0.16`. -/
def redisVerValue : List Nat := [54, 46, 48, 46, 49, 54]

/-- Everything `write_rdb` sends through the CRC wrapper: header, metadata,
database selector, resize hint, the records, and the 0xFF terminator. -/
def rdbBody (dataStore : List (List Nat × RdbValue)) (expiryStore : List (List Nat × Nat)) :
    List Nat :=
  rdbHeader ++
  [0xFA] ++ encodeStringForWrite redisVerName ++ encodeStringForWrite redisVerValue ++
  [0xFE] ++ encodeLengthForWrite 0 ++
  [0xFB] ++ encodeLengthForWrite dataStore.length ++ encodeLengthForWrite expiryStore.length ++
  dataStore.flatMap (rdbRecordBytes expiryStore) ++
  [0xFF]

/-- `write_rdb` followed by `append_crc64`: the body, then the 8-byte
big-endian CRC-64 of the body. -/
def writeRdbFile (dataStore : List (List Nat × RdbValue))
    (expiryStore : List (List Nat × Nat)) : List Nat :=
  rdbBody dataStore expiryStore ++ beBytes 8 (crc64 (rdbBody dataStore expiryStore) 0)

/-! ## rdbparser.py — snapshot reader -/

/-- `read_byte`: EOFError on an exhausted buffer. -/
def rdbReadByte (buf : List Nat) : Except String (Nat × List Nat) :=
  match buf with
  | [] => .error "EOFError"
  | b :: rest => .ok (b, rest)

/-- `file.read(n)` at the call sites that check the returned length and raise
EOFError when it is short. -/
def rdbReadBytes (n : Nat) (buf : List Nat) : Except String (List Nat × List Nat) :=
  if buf.length < n then .error "EOFError" else .ok (buf.take n, buf.drop n)

/-- `read_length`: the RDB length decoding dispatched on the top two bits. -/
def rdbReadLength (buf : List Nat) : Except String (Nat × List Nat) := do
  let (firstByte, buf1) ← rdbReadByte buf
  let encoding := (firstByte &&& 0xC0) >>> 6
  if encoding = 0 then
    .ok (firstByte, buf1)
  else if encoding = 1 then do
    let (secondByte, buf2) ← rdbReadByte buf1
    .ok (((firstByte &&& 0x3F) <<< 8) ||| secondByte, buf2)
  else if encoding = 2 then do
    let (lengthBytes, buf2) ← rdbReadBytes 4 buf1
    .ok (beVal lengthBytes, buf2)
  else
    .error "ValueError: Unknown length encoding"

/-- `read_string` (the `length == -1` null branch of the source is dead code:
`read_length` never yields a negative value). -/
def rdbReadString (buf : List Nat) : Except String (List Nat × List Nat) := do
  let (length, buf1) ← rdbReadLength buf
  rdbReadBytes length buf1

/-- `read_expire` for the two expiry opcodes the caller passes (0xFC:
8 little-endian bytes of milliseconds; 0xFD: 4 little-endian bytes of
seconds, scaled by 1000). -/
def rdbReadExpire (expireOpcode : Nat) (buf : List Nat) : Except String (Nat × List Nat) :=
  if expireOpcode = 0xFC then do
    let (tsBytes, buf1) ← rdbReadBytes 8 buf
    .ok (leVal tsBytes, buf1)
  else if expireOpcode = 0xFD then do
    let (tsBytes, buf1) ← rdbReadBytes 4 buf
    .ok (leVal tsBytes * 1000, buf1)
  else
    .error "read_expire called without an expiry opcode"

/-- The pair of stores `parse_rdb` populates. -/
structure RdbStores where
  dataStore : List (List Nat × RdbValue)
  expiryStore : List (List Nat × Nat)
deriving Repr, DecidableEq

/-- `[read_string(f) for _ in range(n)]`. -/
def rdbReadStrings (n : Nat) (buf : List Nat) :
    Except String (List (List Nat) × List Nat) :=
  match n with
  | 0 => .ok ([], buf)
  | m + 1 => do
    let (s, buf1) ← rdbReadString buf
    let (rest, buf2) ← rdbReadStrings m buf1
    .ok (s :: rest, buf2)

/-- One iteration of the key/value loop inside the 0xFB branch of
`parse_rdb`: optional expiry opcode, value-type byte, key, value body,
then the store updates (the expiry entry is installed only when the
timestamp is not in the past: `if not expire_timestamp < current_time`). -/
def parseRdbRecord (now : Nat) (buf : List Nat) (st : RdbStores) :
    Except String (List Nat × RdbStores) := do
  let (nextOpcode, buf1) ← rdbReadByte buf
  let (expireTimestamp, valueType, buf2) ←
    if nextOpcode = 0xFC then do
      let (t, b) ← rdbReadExpire 0xFC buf1
      let (vt, b') ← rdbReadByte b
      Except.ok (some t, vt, b')
    else if nextOpcode = 0xFD then do
      let (t, b) ← rdbReadExpire 0xFD buf1
      let (vt, b') ← rdbReadByte b
      Except.ok (some t, vt, b')
    else
      Except.ok ((none : Option Nat), nextOpcode, buf1)
  let (key, buf3) ← rdbReadString buf2
  let (value, buf4) ←
    if valueType = 0x00 then do
      let (s, b) ← rdbReadString buf3
      Except.ok (RdbValue.vstr s, b)
    else if valueType = 0x01 then do
      let (listSize, b) ← rdbReadLength buf3
      let (items, b') ← rdbReadStrings listSize b
      Except.ok (RdbValue.vlist items, b')
    else if valueType = 0x02 then do
      let (setSize, b) ← rdbReadLength buf3
      let (items, b') ← rdbReadStrings setSize b
      Except.ok (RdbValue.vset items, b')
    else
      Except.error "ValueError: Unknown value type opcode"
  let withData : RdbStores := ⟨pySet st.dataStore key value, st.expiryStore⟩
  match expireTimestamp with
  | some t =>
    if ¬ t < now then
      Except.ok (buf4, ⟨withData.dataStore, pySet withData.expiryStore key t⟩)
    else
      Except.ok (buf4, withData)
  | none => Except.ok (buf4, withData)

/-- The `for _ in range(main_ht_size)` loop. A failure is reported with the
stores accumulated so far, since the surrounding `except` clauses `break`
out of the parse keeping every record already inserted. -/
def parseRdbRecords (now : Nat) (n : Nat) (buf : List Nat) (st : RdbStores) :
    Except RdbStores (List Nat × RdbStores) :=
  match n with
  | 0 => .ok (buf, st)
  | m + 1 =>
    match parseRdbRecord now buf st with
    | .error _ => .error st
    | .ok (buf1, st1) => parseRdbRecords now m buf1 st1

/-- The `while True` opcode loop of `parse_rdb`. Every error `break`s with
the stores as populated so far; 0xFF ends the parse. The fuel argument is a
bound on the iteration count; each iteration consumes at least one byte, so
`buf.length + 1` is always sufficient. -/
def parseRdbLoop (now : Nat) (fuel : Nat) (buf : List Nat) (st : RdbStores) : RdbStores :=
  match fuel with
  | 0 => st
  | f + 1 =>
    match rdbReadByte buf with
    | .error _ => st
    | .ok (opcode, buf1) =>
      if opcode = 0xFA then
        match (do
          let (_, b) ← rdbReadString buf1
          let (_, b') ← rdbReadString b
          Except.ok b' : Except String (List Nat)) with
        | .ok buf2 => parseRdbLoop now f buf2 st
        | .error _ => st
      else if opcode = 0xFE then
        match rdbReadLength buf1 with
        | .ok (dbIndex, buf2) => if dbIndex ≠ 0 then st else parseRdbLoop now f buf2 st
        | .error _ => st
      else if opcode = 0xFB then
        match (do
          let (mainHtSize, b) ← rdbReadLength buf1
          let (_, b') ← rdbReadLength b
          Except.ok (mainHtSize, b') : Except String (Nat × List Nat)) with
        | .error _ => st
        | .ok (mainHtSize, buf2) =>
          match parseRdbRecords now mainHtSize buf2 st with
          | .error st1 => st1
          | .ok (buf3, st1) => parseRdbLoop now f buf3 st1
      else if opcode = 0xFF then st
      else st

/-- `parse_rdb`: reject files shorter than 17 bytes, strip the trailing
8 bytes (never comparing them to anything), check the magic header, then run
the opcode loop.  Any error before the loop leaves the stores empty. -/
def parseRdb (fileContent : List Nat) (now : Nat) : RdbStores :=
  if fileContent.length < 17 then ⟨[], []⟩
  else
    let rdbData := fileContent.take (fileContent.length - 8)
    if rdbData.take 9 ≠ rdbHeader then ⟨[], []⟩
    else parseRdbLoop now (rdbData.length + 1) (rdbData.drop 9) ⟨[], []⟩

/-! ## Round-trip lemmas for the snapshot primitives -/

theorem lor_shiftLeft_eq_add (a b i : Nat) (hb : b < 2 ^ i) :
    ((a <<< i) ||| b) = a * 2 ^ i + b := by
  apply Nat.eq_of_testBit_eq
  intro j
  rw [Nat.testBit_or, Nat.testBit_shiftLeft,
    show a * 2 ^ i + b = 2 ^ i * a + b by ring, Nat.testBit_mul_pow_two_add a hb j]
  by_cases hj : j < i
  · simp [hj, Nat.not_le.mpr hj]
  · have hji : i ≤ j := Nat.not_lt.mp hj
    have hbj : b.testBit j = false :=
      Nat.testBit_lt_two_pow (lt_of_lt_of_le hb (Nat.pow_le_pow_right (by norm_num) hji))
    simp [hj, hji, hbj]

theorem leBytes_length (n t : Nat) : (leBytes n t).length = n := by
  induction n generalizing t with
  | zero => rfl
  | succ m ih => simp [leBytes, ih]

theorem beBytes_length (n t : Nat) : (beBytes n t).length = n := by
  induction n generalizing t with
  | zero => rfl
  | succ m ih => simp [beBytes, ih]

theorem leVal_leBytes (n t : Nat) (h : t < 256 ^ n) : leVal (leBytes n t) = t := by
  induction n generalizing t with
  | zero => simp [leBytes, leVal]; omega
  | succ m ih =>
    have hdiv : t / 256 < 256 ^ m := by
      rw [Nat.div_lt_iff_lt_mul (by norm_num)]
      calc t < 256 ^ (m + 1) := h
        _ = 256 ^ m * 256 := by ring
    simp [leBytes, leVal, ih _ hdiv]
    omega

theorem beVal_append_singleton (xs : List Nat) (b : Nat) :
    beVal (xs ++ [b]) = beVal xs * 256 + b := by
  simp [beVal, List.foldl_append]

theorem beVal_beBytes (n t : Nat) (h : t < 256 ^ n) : beVal (beBytes n t) = t := by
  induction n generalizing t with
  | zero => simp [beBytes, beVal]; omega
  | succ m ih =>
    have hdiv : t / 256 < 256 ^ m := by
      rw [Nat.div_lt_iff_lt_mul (by norm_num)]
      calc t < 256 ^ (m + 1) := h
        _ = 256 ^ m * 256 := by ring
    rw [beBytes, beVal_append_singleton, ih _ hdiv]
    omega

theorem rdbReadBytes_exact (xs rest : List Nat) :
    rdbReadBytes xs.length (xs ++ rest) = .ok (xs, rest) := by
  have hlen : ¬ (xs ++ rest).length < xs.length := by
    simp [List.length_append]
  simp [rdbReadBytes, hlen, List.take_left, List.drop_left]

theorem exOkBind {ε α β : Type} (a : α) (f : α → Except ε β) :
    (Except.ok (ε := ε) a >>= f) = f a := rfl

theorem exErrBind {ε α β : Type} (e : ε) (f : α → Except ε β) :
    (Except.error (α := α) e >>= f) = Except.error e := rfl

theorem rdbReadLength_round (L : Nat) (hL : L < 2 ^ 32) (rest : List Nat) :
    rdbReadLength (encodeLengthForWrite L ++ rest) = .ok (L, rest) := by
  by_cases h1 : L ≤ 63
  · have hand : L &&& 0xC0 = 0 := by interval_cases L <;> decide
    simp [encodeLengthForWrite, h1, rdbReadLength, rdbReadByte, exOkBind, hand]
  · by_cases h2 : L ≤ 16383
    · have hy : L >>> 8 = L / 256 := by
        rw [Nat.shiftRight_eq_div_pow]
      have hylt : L / 256 ≤ 63 := by omega
      have hmask : (L / 256) &&& 0x3F = L / 256 := by
        rw [show (0x3F : Nat) = 2 ^ 6 - 1 by norm_num, Nat.and_pow_two_sub_one_eq_mod]
        exact Nat.mod_eq_of_lt (by omega)
      have hfirst : (64 ||| ((L >>> 8) &&& 0x3F)) = 64 + L / 256 := by
        rw [hy, hmask]
        have h := lor_shiftLeft_eq_add 1 (L / 256) 6 (by omega)
        rw [show (1 : Nat) <<< 6 = 64 from rfl, show (1 : Nat) * 2 ^ 6 = 64 from rfl] at h
        exact h
      have hsecond : L &&& 0xFF = L % 256 := by
        rw [show (0xFF : Nat) = 2 ^ 8 - 1 by norm_num, Nat.and_pow_two_sub_one_eq_mod]
      have hbuf : encodeLengthForWrite L ++ rest = (64 + L / 256) :: (L % 256) :: rest := by
        simp [encodeLengthForWrite, if_neg h1, if_pos h2, hfirst, hsecond]
      set y := L / 256 with hy2
      have henc : ((64 + y) &&& 0xC0) >>> 6 = 1 := by
        interval_cases y <;> decide
      have h63 : (64 + y) &&& 0x3F = y := by
        interval_cases y <;> decide
      have hres : (y <<< 8) ||| (L % 256) = L := by
        rw [lor_shiftLeft_eq_add y (L % 256) 8 (by omega)]
        omega
      rw [hbuf]
      simp [rdbReadLength, rdbReadByte, exOkBind, henc, h63, hres]
    · have h128 : ((128 : Nat) &&& 0xC0) >>> 6 = 2 := by decide
      have hbe : rdbReadBytes 4 (beBytes 4 L ++ rest) = .ok (beBytes 4 L, rest) := by
        have := rdbReadBytes_exact (beBytes 4 L) rest
        rwa [beBytes_length] at this
      have hval : beVal (beBytes 4 L) = L := beVal_beBytes 4 L (by norm_num at hL ⊢; omega)
      have hbuf : encodeLengthForWrite L ++ rest = 128 :: (beBytes 4 L ++ rest) := by
        simp [encodeLengthForWrite, if_neg h1, if_neg h2]
      rw [hbuf]
      simp [rdbReadLength, rdbReadByte, exOkBind, h128, hbe, hval]

theorem rdbReadString_round (s rest : List Nat) (h : s.length < 2 ^ 32) :
    rdbReadString (encodeStringForWrite s ++ rest) = .ok (s, rest) := by
  rw [encodeStringForWrite, List.append_assoc]
  rw [rdbReadString, rdbReadLength_round s.length h, exOkBind]
  exact rdbReadBytes_exact s rest

theorem rdbReadStrings_round (items : List (List Nat)) (rest : List Nat)
    (h : ∀ s ∈ items, s.length < 2 ^ 32) :
    rdbReadStrings items.length (items.flatMap encodeStringForWrite ++ rest) =
      .ok (items, rest) := by
  induction items with
  | nil => simp [rdbReadStrings]
  | cons s items ih =>
    have hs : s.length < 2 ^ 32 := h s (by simp)
    have hrest : ∀ x ∈ items, x.length < 2 ^ 32 := fun x hx => h x (by simp [hx])
    simp only [List.length_cons, List.flatMap_cons, List.append_assoc, rdbReadStrings,
      rdbReadString_round s _ hs, exOkBind, ih hrest]

/-- Well-formedness of a value for the writer/reader pair: string lengths fit
in the 4-byte length encoding, and the value is not a set (set records are
settled separately: their on-disk form is misread). -/
def rdbValueOk : RdbValue → Prop
  | .vstr s => s.length < 2 ^ 32
  | .vlist l => l.length < 2 ^ 32 ∧ ∀ x ∈ l, x.length < 2 ^ 32
  | .vset _ => False

/-- The effect of parsing one record on the stores: insert the value, and
install the expiry entry unless the timestamp is strictly in the past. -/
def rdbRecordEffect (now : Nat) (es : List (List Nat × Nat)) (k : List Nat) (v : RdbValue)
    (st : RdbStores) : RdbStores :=
  match pyGet es k with
  | some t =>
    if ¬ t < now then ⟨pySet st.dataStore k v, pySet st.expiryStore k t⟩
    else ⟨pySet st.dataStore k v, st.expiryStore⟩
  | none => ⟨pySet st.dataStore k v, st.expiryStore⟩

theorem rdbReadExpire_fc (t : Nat) (ht : t < 256 ^ 8) (rest : List Nat) :
    rdbReadExpire 0xFC (leBytes 8 t ++ rest) = .ok (t, rest) := by
  have h8 := rdbReadBytes_exact (leBytes 8 t) rest
  rw [leBytes_length] at h8
  simp [rdbReadExpire, h8, exOkBind, leVal_leBytes 8 t ht]

theorem parseRdbRecord_round (now : Nat) (es : List (List Nat × Nat)) (k : List Nat)
    (v : RdbValue) (rest : List Nat) (st : RdbStores)
    (hk : k.length < 2 ^ 32) (hv : rdbValueOk v)
    (ht : ∀ t, pyGet es k = some t → t < 256 ^ 8) :
    parseRdbRecord now (rdbRecordBytes es (k, v) ++ rest) st =
      .ok (rest, rdbRecordEffect now es k v st) := by
  cases hes : pyGet es k with
  | some t =>
    have ht' := ht t hes
    cases v with
    | vstr s =>
      have hbuf : rdbRecordBytes es (k, .vstr s) ++ rest =
          0xFC :: (leBytes 8 t ++ (0x00 ::
            (encodeStringForWrite k ++ (encodeStringForWrite s ++ rest)))) := by
        simp [rdbRecordBytes, hes, encodeExpireMsForWrite, List.append_assoc]
      rw [hbuf]
      simp [parseRdbRecord, rdbReadByte, exOkBind, rdbReadExpire_fc t ht',
        rdbReadString_round k _ hk, rdbReadString_round s _ hv, rdbRecordEffect, hes]
      split <;> rfl
    | vlist l =>
      have hbuf : rdbRecordBytes es (k, .vlist l) ++ rest =
          0xFC :: (leBytes 8 t ++ (0x01 :: (encodeStringForWrite k ++
            (encodeLengthForWrite l.length ++
              (l.flatMap encodeStringForWrite ++ rest))))) := by
        simp [rdbRecordBytes, hes, encodeExpireMsForWrite, encodeListForWrite,
          List.append_assoc]
      rw [hbuf]
      simp [parseRdbRecord, rdbReadByte, exOkBind, rdbReadExpire_fc t ht',
        rdbReadString_round k _ hk, rdbReadLength_round l.length hv.1,
        rdbReadStrings_round l rest hv.2, rdbRecordEffect, hes]
      split <;> rfl
    | vset s => exact hv.elim
  | none =>
    cases v with
    | vstr s =>
      have hbuf : rdbRecordBytes es (k, .vstr s) ++ rest =
          0x00 :: (encodeStringForWrite k ++ (encodeStringForWrite s ++ rest)) := by
        simp [rdbRecordBytes, hes, List.append_assoc]
      rw [hbuf]
      simp [parseRdbRecord, rdbReadByte, exOkBind,
        rdbReadString_round k _ hk, rdbReadString_round s _ hv, rdbRecordEffect, hes]
    | vlist l =>
      have hbuf : rdbRecordBytes es (k, .vlist l) ++ rest =
          0x01 :: (encodeStringForWrite k ++ (encodeLengthForWrite l.length ++
            (l.flatMap encodeStringForWrite ++ rest))) := by
        simp [rdbRecordBytes, hes, encodeListForWrite, List.append_assoc]
      rw [hbuf]
      simp [parseRdbRecord, rdbReadByte, exOkBind,
        rdbReadString_round k _ hk, rdbReadLength_round l.length hv.1,
        rdbReadStrings_round l rest hv.2, rdbRecordEffect, hes]
    | vset s => exact hv.elim

theorem parseRdbRecords_round (now : Nat) (es : List (List Nat × Nat))
    (ds : List (List Nat × RdbValue)) (rest : List Nat) (st : RdbStores)
    (hk : ∀ kv ∈ ds, kv.1.length < 2 ^ 32 ∧ rdbValueOk kv.2)
    (ht : ∀ k t, pyGet es k = some t → t < 256 ^ 8) :
    parseRdbRecords now ds.length (ds.flatMap (rdbRecordBytes es) ++ rest) st =
      .ok (rest, ds.foldl (fun s kv => rdbRecordEffect now es kv.1 kv.2 s) st) := by
  induction ds generalizing st with
  | nil => simp [parseRdbRecords]
  | cons kv ds ih =>
    obtain ⟨k, v⟩ := kv
    have hkv := hk (k, v) (by simp)
    rw [List.length_cons, List.flatMap_cons, List.append_assoc, parseRdbRecords,
      parseRdbRecord_round now es k v _ st hkv.1 hkv.2 (fun t h => ht k t h)]
    exact ih (rdbRecordEffect now es k v st) (fun kv h => hk kv (List.mem_cons_of_mem _ h))

/-- The byte stream following the magic header in a written snapshot. -/
def rdbTail (dataStore : List (List Nat × RdbValue)) (expiryStore : List (List Nat × Nat)) :
    List Nat :=
  [0xFA] ++ encodeStringForWrite redisVerName ++ encodeStringForWrite redisVerValue ++
  [0xFE] ++ encodeLengthForWrite 0 ++
  [0xFB] ++ encodeLengthForWrite dataStore.length ++ encodeLengthForWrite expiryStore.length ++
  dataStore.flatMap (rdbRecordBytes expiryStore) ++
  [0xFF]

theorem rdbBody_split (ds : List (List Nat × RdbValue)) (es : List (List Nat × Nat)) :
    rdbBody ds es = rdbHeader ++ rdbTail ds es := by
  simp [rdbBody, rdbTail, List.append_assoc]

theorem parseRdbLoop_fa (now f : Nat) (st : RdbStores) (m1 m2 rest : List Nat)
    (h1 : m1.length < 2 ^ 32) (h2 : m2.length < 2 ^ 32) :
    parseRdbLoop now (f + 1)
      (0xFA :: (encodeStringForWrite m1 ++ (encodeStringForWrite m2 ++ rest))) st =
      parseRdbLoop now f rest st := by
  simp [parseRdbLoop, rdbReadByte, exOkBind, rdbReadString_round m1 _ h1,
    rdbReadString_round m2 _ h2]

theorem parseRdbLoop_fe (now f : Nat) (st : RdbStores) (rest : List Nat) :
    parseRdbLoop now (f + 1) (0xFE :: (encodeLengthForWrite 0 ++ rest)) st =
      parseRdbLoop now f rest st := by
  simp [parseRdbLoop, rdbReadByte, exOkBind, rdbReadLength_round 0 (by norm_num) rest]

theorem parseRdbLoop_fb (now f : Nat) (st : RdbStores) (ds : List (List Nat × RdbValue))
    (es : List (List Nat × Nat)) (rest : List Nat)
    (hds : ds.length < 2 ^ 32) (hes : es.length < 2 ^ 32)
    (hk : ∀ kv ∈ ds, kv.1.length < 2 ^ 32 ∧ rdbValueOk kv.2)
    (ht : ∀ k t, pyGet es k = some t → t < 256 ^ 8) :
    parseRdbLoop now (f + 1)
      (0xFB :: (encodeLengthForWrite ds.length ++ (encodeLengthForWrite es.length ++
        (ds.flatMap (rdbRecordBytes es) ++ rest)))) st =
      parseRdbLoop now f rest
        (ds.foldl (fun s kv => rdbRecordEffect now es kv.1 kv.2 s) st) := by
  simp [parseRdbLoop, rdbReadByte, exOkBind, rdbReadLength_round ds.length hds,
    rdbReadLength_round es.length hes, parseRdbRecords_round now es ds rest st hk ht]

theorem parseRdbLoop_ff (now f : Nat) (st : RdbStores) (rest : List Nat) :
    parseRdbLoop now (f + 1) (0xFF :: rest) st = st := by
  simp [parseRdbLoop, rdbReadByte, exOkBind]

/-- The stores a successful parse of a freshly written snapshot produces. -/
def rdbFinalStores (now : Nat) (ds : List (List Nat × RdbValue))
    (es : List (List Nat × Nat)) : RdbStores :=
  ds.foldl (fun s kv => rdbRecordEffect now es kv.1 kv.2 s) ⟨[], []⟩

theorem parseRdbLoop_tail (now f : Nat) (ds : List (List Nat × RdbValue))
    (es : List (List Nat × Nat))
    (hds : ds.length < 2 ^ 32) (hes : es.length < 2 ^ 32)
    (hk : ∀ kv ∈ ds, kv.1.length < 2 ^ 32 ∧ rdbValueOk kv.2)
    (ht : ∀ k t, pyGet es k = some t → t < 256 ^ 8) :
    parseRdbLoop now (f + 4) (rdbTail ds es) ⟨[], []⟩ = rdbFinalStores now ds es := by
  have hshape : rdbTail ds es =
      0xFA :: (encodeStringForWrite redisVerName ++ (encodeStringForWrite redisVerValue ++
        (0xFE :: (encodeLengthForWrite 0 ++
          (0xFB :: (encodeLengthForWrite ds.length ++ (encodeLengthForWrite es.length ++
            (ds.flatMap (rdbRecordBytes es) ++ [0xFF])))))))) := by
    simp [rdbTail, List.append_assoc]
  rw [hshape, show f + 4 = (f + 3) + 1 from rfl,
    parseRdbLoop_fa now (f + 3) _ redisVerName redisVerValue _ (by norm_num [redisVerName])
      (by norm_num [redisVerValue]),
    show f + 3 = (f + 2) + 1 from rfl, parseRdbLoop_fe,
    show f + 2 = (f + 1) + 1 from rfl,
    parseRdbLoop_fb now (f + 1) _ ds es _ hds hes hk ht, parseRdbLoop_ff]
  rfl

theorem parseRdb_write_round (now : Nat) (ds : List (List Nat × RdbValue))
    (es : List (List Nat × Nat))
    (hds : ds.length < 2 ^ 32) (hes : es.length < 2 ^ 32)
    (hk : ∀ kv ∈ ds, kv.1.length < 2 ^ 32 ∧ rdbValueOk kv.2)
    (ht : ∀ k t, pyGet es k = some t → t < 256 ^ 8) :
    parseRdb (writeRdbFile ds es) now = rdbFinalStores now ds es := by
  have hbody : writeRdbFile ds es =
      (rdbHeader ++ rdbTail ds es) ++ beBytes 8 (crc64 (rdbBody ds es) 0) := by
    rw [writeRdbFile, rdbBody_split]
  have hlen : (writeRdbFile ds es).length = 9 + (rdbTail ds es).length + 8 := by
    rw [hbody]
    simp [rdbHeader, beBytes_length]
    omega
  have h17 : ¬ (writeRdbFile ds es).length < 17 := by omega
  have htake : (writeRdbFile ds es).take ((writeRdbFile ds es).length - 8) =
      rdbHeader ++ rdbTail ds es := by
    rw [hbody]
    apply List.take_left'
    rw [hbody] at hlen
    simp [rdbHeader] at hlen ⊢
    omega
  rw [parseRdb, if_neg h17]
  simp only [htake]
  have hhead : (rdbHeader ++ rdbTail ds es).take 9 = rdbHeader :=
    List.take_left' (by simp [rdbHeader])
  have hdrop : (rdbHeader ++ rdbTail ds es).drop 9 = rdbTail ds es :=
    List.drop_left' (by simp [rdbHeader])
  rw [if_neg (by simp [hhead]), hdrop]
  have hfuel : (rdbHeader ++ rdbTail ds es).length + 1 = ((rdbTail ds es).length + 6) + 4 := by
    simp [rdbHeader]
  rw [hfuel]
  exact parseRdbLoop_tail now _ ds es hds hes hk ht

theorem pyGet_append {α β : Type} [DecidableEq α] (d1 d2 : List (α × β)) (k : α) :
    pyGet (d1 ++ d2) k =
      match pyGet d1 k with
      | some v => some v
      | none => pyGet d2 k := by
  induction d1 with
  | nil => simp [pyGet]
  | cons kv d1 ih =>
    obtain ⟨k', v⟩ := kv
    by_cases h : k' = k <;> simp [pyGet, h, ih]

theorem pySet_fresh {α β : Type} [DecidableEq α] (d : List (α × β)) (k : α) (v : β)
    (h : pyGet d k = none) : pySet d k v = d ++ [(k, v)] := by
  induction d with
  | nil => simp [pySet]
  | cons kv d ih =>
    obtain ⟨k', v'⟩ := kv
    by_cases hk : k' = k
    · simp [pyGet, hk] at h
    · simp [pyGet, hk] at h
      simp [pySet, hk, ih h]

/-- The expiry entries the parse of a written snapshot installs, in record
order: one entry per data-store key that has an expiry not strictly in the
past at load time. -/
def rdbExpiryEntries (now : Nat) (es : List (List Nat × Nat))
    (ds : List (List Nat × RdbValue)) : List (List Nat × Nat) :=
  ds.filterMap (fun kv =>
    match pyGet es kv.1 with
    | some t => if ¬ t < now then some (kv.1, t) else none
    | none => none)

theorem rdbFold_eq (now : Nat) (es : List (List Nat × Nat))
    (ds : List (List Nat × RdbValue)) (st : RdbStores)
    (hnodup : (ds.map Prod.fst).Nodup)
    (hfresh : ∀ kv ∈ ds, pyGet st.dataStore kv.1 = none ∧ pyGet st.expiryStore kv.1 = none) :
    ds.foldl (fun s kv => rdbRecordEffect now es kv.1 kv.2 s) st =
      ⟨st.dataStore ++ ds, st.expiryStore ++ rdbExpiryEntries now es ds⟩ := by
  induction ds generalizing st with
  | nil => cases st; simp [rdbExpiryEntries]
  | cons kv ds ih =>
    obtain ⟨k, v⟩ := kv
    have hnd : k ∉ ds.map Prod.fst ∧ (ds.map Prod.fst).Nodup := by
      rw [List.map_cons, List.nodup_cons] at hnodup
      exact hnodup
    have hk0 := hnd.1
    have htl := hnd.2
    have hfr := hfresh (k, v) (by simp)
    have hdata : pySet st.dataStore k v = st.dataStore ++ [(k, v)] := pySet_fresh _ _ _ hfr.1
    have hstep : rdbRecordEffect now es k v st =
        ⟨st.dataStore ++ [(k, v)], st.expiryStore ++
          (match pyGet es k with
           | some t => if ¬ t < now then [(k, t)] else []
           | none => [])⟩ := by
      rw [rdbRecordEffect]
      cases pyGet es k with
      | none => simp [hdata]
      | some t =>
        by_cases htn : t < now
        · simp [htn, hdata]
        · simp [htn, hdata, pySet_fresh _ _ _ hfr.2]
    have hfresh' : ∀ kv ∈ ds,
        pyGet (st.dataStore ++ [(k, v)]) kv.1 = none ∧
        pyGet (st.expiryStore ++
          (match pyGet es k with
           | some t => if ¬ t < now then [(k, t)] else []
           | none => [])) kv.1 = none := by
      intro kv hkv
      have hne : k ≠ kv.1 := by
        intro he
        exact hk0 (he ▸ List.mem_map.mpr ⟨kv, hkv, rfl⟩)
      have hf := hfresh kv (List.mem_cons_of_mem _ hkv)
      constructor
      · rw [pyGet_append, hf.1]
        simp [pyGet, hne]
      · rw [pyGet_append, hf.2]
        cases pyGet es k with
        | none => simp [pyGet]
        | some t =>
          by_cases htn : t < now <;> simp [htn, pyGet, hne]
    rw [List.foldl_cons, hstep, ih _ htl hfresh']
    have hexp : rdbExpiryEntries now es ((k, v) :: ds) =
        (match pyGet es k with
         | some t => if ¬ t < now then [(k, t)] else []
         | none => []) ++ rdbExpiryEntries now es ds := by
      rw [rdbExpiryEntries, List.filterMap_cons]
      cases pyGet es k with
      | none => rfl
      | some t => by_cases htn : t < now <;> simp [htn, rdbExpiryEntries]
    rw [hexp]
    simp [List.append_assoc]

theorem pyGet_rdbExpiryEntries (now : Nat) (es : List (List Nat × Nat))
    (ds : List (List Nat × RdbValue)) (hnodup : (ds.map Prod.fst).Nodup) (k : List Nat) :
    pyGet (rdbExpiryEntries now es ds) k =
      if k ∈ ds.map Prod.fst then
        (match pyGet es k with
         | some t => if ¬ t < now then some t else none
         | none => none)
      else none := by
  induction ds with
  | nil => simp [rdbExpiryEntries, pyGet]
  | cons kv ds ih =>
    obtain ⟨k0, v0⟩ := kv
    have hnd : k0 ∉ ds.map Prod.fst ∧ (ds.map Prod.fst).Nodup := by
      rw [List.map_cons, List.nodup_cons] at hnodup
      exact hnodup
    have hk0 := hnd.1
    have htl := hnd.2
    have hcons : rdbExpiryEntries now es ((k0, v0) :: ds) =
        (match pyGet es k0 with
         | some t => if ¬ t < now then [(k0, t)] else []
         | none => []) ++ rdbExpiryEntries now es ds := by
      rw [rdbExpiryEntries, List.filterMap_cons]
      cases pyGet es k0 with
      | none => rfl
      | some t => by_cases htn : t < now <;> simp [htn, rdbExpiryEntries]
    by_cases hk : k0 = k
    · subst hk
      cases hes : pyGet es k0 with
      | none => simp [hcons, pyGet_append, pyGet, hk0, ih htl, hes]
      | some t =>
        by_cases htn : t < now <;>
          simp [hcons, pyGet_append, pyGet, hk0, ih htl, hes, htn]
    · have hmem : (k ∈ k0 :: ds.map Prod.fst) ↔ k ∈ ds.map Prod.fst := by
        rw [List.mem_cons]
        exact ⟨fun h => h.resolve_left (fun he => hk he.symm), Or.inr⟩
      cases hes : pyGet es k0 with
      | none =>
        simp [hcons, pyGet_append, pyGet, ih htl, hes]
        rw [if_congr hmem rfl rfl]
      | some t =>
        by_cases htn : t < now
        · have hle : ¬ now ≤ t := by omega
          simp [hcons, pyGet_append, pyGet, hk, ih htl, hes, hle]
          rw [if_congr hmem rfl rfl]
        · have hle : now ≤ t := by omega
          simp [hcons, pyGet_append, pyGet, hk, ih htl, hes, hle]
          rw [if_congr hmem rfl rfl]

/-- C1 counterexample: the snapshot round trip fails as stated on two
concrete inputs.  First, with keyspace `{"k": "v"}` and expiry `{"k": 5}`
loaded at `now_ms = 5`, the expiry entry `5 > 5` is false yet the entry is
installed (the reader drops only strictly-past expirations, keeping
`expiration == now_ms`).  Second, a keyspace holding the set value
`{"k": {"a"}}` does not round-trip at all: the writer duplicates the set
type byte, the reader misparses the body, and the key is lost. -/
theorem rdb_snapshot_roundtrip_counterexample :
    (parseRdb (writeRdbFile [([107], RdbValue.vstr [118])] [([107], 5)]) 5).expiryStore =
        [([107], 5)] ∧
      (parseRdb (writeRdbFile [([107], RdbValue.vset [[97]])] []) 0).dataStore = [] := by
  constructor <;> decide

/-- C1 (amended): for keyspaces whose values are byte strings or ordered
sequences (no sets), whose lengths fit the writer's packed encodings, and
whose expiry table covers only keyspace keys, reading a written snapshot at
`now_ms` yields the keyspace unchanged, and an expiry table containing
exactly the entries of the input whose expiration is greater than **or equal
to** `now_ms`; only strictly-past expirations are dropped (value kept). -/
theorem rdb_snapshot_roundtrip_amended (now : Nat) (ds : List (List Nat × RdbValue))
    (es : List (List Nat × Nat))
    (hnodup : (ds.map Prod.fst).Nodup)
    (hds : ds.length < 2 ^ 32) (hes : es.length < 2 ^ 32)
    (hk : ∀ kv ∈ ds, kv.1.length < 2 ^ 32 ∧ rdbValueOk kv.2)
    (ht : ∀ k t, pyGet es k = some t → t < 256 ^ 8)
    (hsub : ∀ k, (pyGet es k).isSome → k ∈ ds.map Prod.fst) :
    (parseRdb (writeRdbFile ds es) now).dataStore = ds ∧
      ∀ k, pyGet (parseRdb (writeRdbFile ds es) now).expiryStore k =
        match pyGet es k with
        | some t => if now ≤ t then some t else none
        | none => none := by
  rw [parseRdb_write_round now ds es hds hes hk ht, rdbFinalStores,
    rdbFold_eq now es ds ⟨[], []⟩ hnodup (fun kv _ => ⟨rfl, rfl⟩)]
  constructor
  · simp
  · intro k
    show pyGet ([] ++ rdbExpiryEntries now es ds) k = _
    rw [List.nil_append, pyGet_rdbExpiryEntries now es ds hnodup k]
    by_cases hmem : k ∈ ds.map Prod.fst
    · rw [if_pos hmem]
      cases pyGet es k with
      | none => rfl
      | some t =>
        show (if ¬ t < now then some t else none) = (if now ≤ t then some t else none)
        by_cases h : now ≤ t
        · rw [if_pos (show ¬ t < now by omega), if_pos h]
        · rw [if_neg (show ¬ ¬ t < now by omega), if_neg h]
    · rw [if_neg hmem]
      cases hge : pyGet es k with
      | none => rfl
      | some t => exact absurd (hsub k (by simp [hge])) hmem

/-- Witness for the amended C1 theorem: a two-key keyspace (a byte string and
an ordered sequence) with one future expiry round-trips as amended. -/
theorem rdb_snapshot_roundtrip_amended_witness :
    (parseRdb (writeRdbFile [([107], RdbValue.vstr [118]), ([108], RdbValue.vlist [[97], [98]])]
        [([108], 1000)]) 500).dataStore =
      [([107], RdbValue.vstr [118]), ([108], RdbValue.vlist [[97], [98]])] ∧
    pyGet (parseRdb (writeRdbFile [([107], RdbValue.vstr [118]),
        ([108], RdbValue.vlist [[97], [98]])] [([108], 1000)]) 500).expiryStore [108] =
      some 1000 := by
  have hk : ∀ kv ∈ [([107], RdbValue.vstr [118]), ([108], RdbValue.vlist [[97], [98]])],
      (kv.1 : List Nat).length < 2 ^ 32 ∧ rdbValueOk kv.2 := by
    intro kv hkv
    simp only [List.mem_cons, List.not_mem_nil, or_false] at hkv
    rcases hkv with rfl | rfl
    · exact ⟨by norm_num, by norm_num [rdbValueOk]⟩
    · refine ⟨by norm_num, by norm_num [rdbValueOk]⟩
  have ht : ∀ k t, pyGet [([108], (1000 : Nat))] k = some t → t < 256 ^ 8 := by
    intro k t h
    by_cases hke : ([108] : List Nat) = k
    · simp [pyGet, hke] at h
      omega
    · simp [pyGet, hke] at h
  have hsub : ∀ k, (pyGet [([108], (1000 : Nat))] k).isSome →
      k ∈ ([([107], RdbValue.vstr [118]), ([108], RdbValue.vlist [[97], [98]])].map Prod.fst) := by
    intro k h
    by_cases hke : ([108] : List Nat) = k
    · simp [← hke]
    · simp [pyGet, hke] at h
  have h := rdb_snapshot_roundtrip_amended 500
    [([107], RdbValue.vstr [118]), ([108], RdbValue.vlist [[97], [98]])]
    [([108], 1000)] (by decide) (by norm_num) (by norm_num) hk ht hsub
  refine ⟨h.1, ?_⟩
  rw [h.2 [108]]
  rfl

/-- C2 counterexample: the claim's checksum verification does not happen.
A one-key snapshot body followed by eight zero bytes is a file whose stored
tail differs from CRC-64 of the preceding bytes, yet the reader, rather than
failing with a checksum error and leaving the keyspace empty, loads it and
populates the keyspace. -/
theorem parseRdb_no_checksum_check_counterexample :
    beBytes 8 (crc64 (rdbBody [([107], RdbValue.vstr [118])] []) 0) ≠
        [0, 0, 0, 0, 0, 0, 0, 0] ∧
      (parseRdb (rdbBody [([107], RdbValue.vstr [118])] [] ++ [0, 0, 0, 0, 0, 0, 0, 0])
          0).dataStore = [([107], RdbValue.vstr [118])] := by
  have hbody : rdbBody [([107], RdbValue.vstr [118])] [] =
      [82, 69, 68, 73, 83, 48, 48, 49, 49, 250, 9, 114, 101] ++
        ([100, 105, 115, 45, 118, 101, 114, 6, 54, 46, 48, 46, 49] ++
          [54, 254, 0, 251, 1, 0, 0, 1, 107, 1, 118, 255]) := by decide
  have h1 : crc64 [82, 69, 68, 73, 83, 48, 48, 49, 49, 250, 9, 114, 101] 0 =
      12826194666823465741 := by decide
  have h2 : crc64 [100, 105, 115, 45, 118, 101, 114, 6, 54, 46, 48, 46, 49]
      12826194666823465741 = 10950283810338706494 := by decide
  have h3 : crc64 [54, 254, 0, 251, 1, 0, 0, 1, 107, 1, 118, 255]
      10950283810338706494 = 18017081074279307651 := by decide
  have hcrc : crc64 (rdbBody [([107], RdbValue.vstr [118])] []) 0 = 18017081074279307651 := by
    rw [hbody, crc64_append, h1, crc64_append, h2, h3]
  constructor
  · rw [hcrc]
    decide
  · decide

/-- C2 (amended): the snapshot reader strips the last 8 bytes but never
computes or compares a checksum: two files with the same prefix and
arbitrary (possibly different) 8-byte tails parse to exactly the same
stores, so loading succeeds — and populates the keyspace — whether or not
the tail matches CRC-64 of the prefix, and a mismatch is never detected. -/
theorem parseRdb_ignores_checksum_tail (body t1 t2 : List Nat) (now : Nat)
    (h1 : t1.length = 8) (h2 : t2.length = 8) :
    parseRdb (body ++ t1) now = parseRdb (body ++ t2) now := by
  have hl1 : (body ++ t1).length = body.length + 8 := by simp [h1]
  have hl2 : (body ++ t2).length = body.length + 8 := by simp [h2]
  have e1 : (body ++ t1).take ((body ++ t1).length - 8) = body := by
    rw [hl1, Nat.add_sub_cancel]
    exact List.take_left' rfl
  have e2 : (body ++ t2).take ((body ++ t2).length - 8) = body := by
    rw [hl2, Nat.add_sub_cancel]
    exact List.take_left' rfl
  rw [parseRdb, parseRdb, e1, e2, hl1, hl2]

/-- Witness for the amended C2 theorem: a one-key snapshot body with its
correct CRC-64 tail and the same body with a zeroed (mismatching) tail load
identically, and the zero-tailed file still populates the keyspace. -/
theorem parseRdb_ignores_checksum_tail_witness :
    parseRdb (rdbBody [([107], RdbValue.vstr [118])] [] ++
        beBytes 8 (crc64 (rdbBody [([107], RdbValue.vstr [118])] []) 0)) 0 =
      parseRdb (rdbBody [([107], RdbValue.vstr [118])] [] ++ [0, 0, 0, 0, 0, 0, 0, 0]) 0 ∧
    (parseRdb (rdbBody [([107], RdbValue.vstr [118])] [] ++ [0, 0, 0, 0, 0, 0, 0, 0])
        0).dataStore = [([107], RdbValue.vstr [118])] := by
  refine ⟨parseRdb_ignores_checksum_tail _ _ _ 0 (beBytes_length 8 _) (by decide), by decide⟩

/-! ## resp.py — the wire-protocol codec

Python `str` values are Lean `String`s.  `str.encode()` / `bytes.decode()`
are modelled by a strict UTF-8 codec over byte lists.  The frame-type prefix
bytes and the terminator come from constants.py (`*`, `$`, `+`, `-`, `:`,
CR LF, and the null bulk string `$-1\r\n`). -/

/-- UTF-8 encoding of one code point (as `str.encode()` produces). -/
def utf8EncodeChar (c : Nat) : List Nat :=
  if c < 0x80 then [c]
  else if c < 0x800 then [0xC0 ||| (c >>> 6), 0x80 ||| (c &&& 0x3F)]
  else if c < 0x10000 then
    [0xE0 ||| (c >>> 12), 0x80 ||| ((c >>> 6) &&& 0x3F), 0x80 ||| (c &&& 0x3F)]
  else
    [0xF0 ||| (c >>> 18), 0x80 ||| ((c >>> 12) &&& 0x3F),
     0x80 ||| ((c >>> 6) &&& 0x3F), 0x80 ||| (c &&& 0x3F)]

/-- `s.encode()`: the UTF-8 bytes of a string. -/
def strToUtf8 (s : String) : List Nat :=
  (s.data.map Char.toNat).flatMap utf8EncodeChar

/-- Strict UTF-8 decoding to code points, rejecting truncated sequences,
bad continuations, overlong forms, surrogates and values above 0x10FFFF,
exactly the sequences `bytes.decode()` rejects with UnicodeDecodeError. -/
def utf8DecodeAux : List Nat → Option (List Nat)
  | [] => some []
  | b :: rest =>
    if b < 0x80 then
      (utf8DecodeAux rest).map (b :: ·)
    else if 0xC2 ≤ b ∧ b ≤ 0xDF then
      match rest with
      | b1 :: rest1 =>
        if 0x80 ≤ b1 ∧ b1 ≤ 0xBF then
          (utf8DecodeAux rest1).map ((((b &&& 0x1F) <<< 6) ||| (b1 &&& 0x3F)) :: ·)
        else none
      | [] => none
    else if 0xE0 ≤ b ∧ b ≤ 0xEF then
      match rest with
      | b1 :: b2 :: rest2 =>
        let lo1 : Nat := if b = 0xE0 then 0xA0 else 0x80
        let hi1 : Nat := if b = 0xED then 0x9F else 0xBF
        if (lo1 ≤ b1 ∧ b1 ≤ hi1) ∧ (0x80 ≤ b2 ∧ b2 ≤ 0xBF) then
          (utf8DecodeAux rest2).map
            ((((b &&& 0x0F) <<< 12) ||| ((b1 &&& 0x3F) <<< 6) ||| (b2 &&& 0x3F)) :: ·)
        else none
      | _ => none
    else if 0xF0 ≤ b ∧ b ≤ 0xF4 then
      match rest with
      | b1 :: b2 :: b3 :: rest3 =>
        let lo1 : Nat := if b = 0xF0 then 0x90 else 0x80
        let hi1 : Nat := if b = 0xF4 then 0x8F else 0xBF
        if (lo1 ≤ b1 ∧ b1 ≤ hi1) ∧ (0x80 ≤ b2 ∧ b2 ≤ 0xBF) ∧ (0x80 ≤ b3 ∧ b3 ≤ 0xBF) then
          (utf8DecodeAux rest3).map
            ((((b &&& 0x07) <<< 18) ||| ((b1 &&& 0x3F) <<< 12) |||
              ((b2 &&& 0x3F) <<< 6) ||| (b3 &&& 0x3F)) :: ·)
        else none
      | _ => none
    else none

/-- `bytes.decode()`: strict UTF-8 decoding to a string. -/
def utf8DecodeStr (bs : List Nat) : Option String :=
  (utf8DecodeAux bs).map (fun cps => String.mk (cps.map Char.ofNat))

/-- The value of a nonempty all-digit character list. -/
def digitsVal? (cs : List Char) : Option Nat :=
  match cs with
  | [] => none
  | _ =>
    cs.foldl
      (fun acc? c => acc?.bind
        (fun acc => if '0' ≤ c ∧ c ≤ '9' then some (acc * 10 + (c.toNat - 48)) else none))
      (some 0)

/-- Python `int(s)` on the optional-sign decimal forms that occur on the
wire (underscore and whitespace forms are out of scope); `none` models a
`ValueError`. -/
def pyInt? (s : String) : Option Int :=
  match s.data with
  | '-' :: rest => (digitsVal? rest).map (fun n => -(n : Int))
  | '+' :: rest => (digitsVal? rest).map (fun n => (n : Int))
  | l => (digitsVal? l).map (fun n => (n : Int))

/-- Python values flowing through the RESP codec: str, bytes, int, list,
None, and the `{"error": line}` dict the error decoder produces. -/
inductive RVal where
  | pystr : String → RVal
  | pybytes : List Nat → RVal
  | pyint : Int → RVal
  | pylist : List RVal → RVal
  | pynone : RVal
  | pyerr : Option String → RVal
deriving Repr

/-- `RESPEncoder.encode_simple_string`. -/
def RESPEncoder.encodeSimpleString (s : String) : List Nat :=
  strToUtf8 ("+" ++ s ++ "\r\n")

/-- `RESPEncoder.encode_error`. -/
def RESPEncoder.encodeError (message : String) : List Nat :=
  strToUtf8 ("-" ++ message ++ "\r\n")

/-- `RESPEncoder.encode_integer` (`str(value)` is the decimal rendering). -/
def RESPEncoder.encodeInteger (value : Int) : List Nat :=
  strToUtf8 (":" ++ toString value ++ "\r\n")

/-- `RESPEncoder.encode_bulk_string`: `None` encodes as the null bulk string
`$-1\r\n`; otherwise the length prefix counts the UTF-8 bytes of the
payload. -/
def RESPEncoder.encodeBulkString (s : Option String) : List Nat :=
  match s with
  | none => [36, 45, 49, 13, 10]
  | some s =>
    strToUtf8 ("$" ++ toString (strToUtf8 s).length ++ "\r\n") ++ strToUtf8 s ++ [13, 10]

mutual

/-- `RESPEncoder.encode`: dispatch on the Python type; bytes are first
UTF-8-decoded (`data.decode()`), unsupported types raise TypeError. -/
def RESPEncoder.encode : RVal → Except String (List Nat)
  | .pystr s => .ok (RESPEncoder.encodeBulkString (some s))
  | .pybytes b =>
    match utf8DecodeStr b with
    | some s => .ok (RESPEncoder.encodeBulkString (some s))
    | none => .error "UnicodeDecodeError"
  | .pyint n => .ok (RESPEncoder.encodeInteger n)
  | .pylist l => do
    let elems ← RESPEncoder.encodeJoin l
    .ok (strToUtf8 ("*" ++ toString l.length ++ "\r\n") ++ elems)
  | .pynone => .ok (RESPEncoder.encodeBulkString none)
  | .pyerr _ => .error "TypeError: Unsupported type for RESP encoding"

/-- The `b"".join([RESPEncoder.encode(data) for data in arr])` of
`encode_array`. -/
def RESPEncoder.encodeJoin : List RVal → Except String (List Nat)
  | [] => .ok []
  | e :: rest => do
    let b ← RESPEncoder.encode e
    let bs ← RESPEncoder.encodeJoin rest
    .ok (b ++ bs)

end

/-- `bytes.find(b"\r\n")`: index of the first CR LF pair. -/
def findCRLF : List Nat → Option Nat
  | [] => none
  | [_] => none
  | b0 :: b1 :: rest =>
    if b0 = 13 ∧ b1 = 10 then some 0 else (findCRLF (b1 :: rest)).map (· + 1)

/-- Python `l[:n]` with a possibly negative index. -/
def pySliceTo (l : List Nat) (n : Int) : List Nat :=
  if 0 ≤ n then l.take n.toNat else l.take (l.length - (-n).toNat)

/-- Python `l[n:]` with a possibly negative index. -/
def pySliceFrom (l : List Nat) (n : Int) : List Nat :=
  if 0 ≤ n then l.drop n.toNat else l.drop (l.length - (-n).toNat)

/-- `RESPDecoder._read_line`: no CR LF leaves the buffer untouched and
returns `None`; otherwise the line **and** its terminator are consumed
before `line.decode()` runs, so a UnicodeDecodeError still leaves the
buffer advanced. -/
def RESPDecoder.readLine (buf : List Nat) : Except String (Option String) × List Nat :=
  match findCRLF buf with
  | none => (.ok none, buf)
  | some i =>
    let line := buf.take i
    let buf1 := buf.drop (i + 2)
    match utf8DecodeStr line with
    | some s => (.ok (some s), buf1)
    | none => (.error "UnicodeDecodeError", buf1)

/-- `RESPDecoder._decode_simple_string`: returns the line as read
(the `+` prefix byte is never stripped). -/
def RESPDecoder.decodeSimpleString (buf : List Nat) : Except String (Option RVal) × List Nat :=
  match RESPDecoder.readLine buf with
  | (.error e, buf1) => (.error e, buf1)
  | (.ok none, buf1) => (.ok none, buf1)
  | (.ok (some line), buf1) => (.ok (some (RVal.pystr line)), buf1)

/-- `RESPDecoder._decode_error`: always wraps the (possibly `None`) line in
the `{"error": line}` dict. -/
def RESPDecoder.decodeError (buf : List Nat) : Except String (Option RVal) × List Nat :=
  match RESPDecoder.readLine buf with
  | (.error e, buf1) => (.error e, buf1)
  | (.ok line, buf1) => (.ok (some (RVal.pyerr line)), buf1)

/-- `RESPDecoder._decode_integer`: `int(line)` on the whole line including
the `:` prefix byte; the ValueError is caught and becomes `None`. -/
def RESPDecoder.decodeInteger (buf : List Nat) : Except String (Option RVal) × List Nat :=
  match RESPDecoder.readLine buf with
  | (.error e, buf1) => (.error e, buf1)
  | (.ok none, buf1) => (.ok none, buf1)
  | (.ok (some line), buf1) =>
    match pyInt? line with
    | some n => (.ok (some (RVal.pyint n)), buf1)
    | none => (.ok none, buf1)

/-- `RESPDecoder._decode_bulk_string`: the header line (consumed by
`_read_line` even when the payload has not arrived) goes through
`int(line)` with the `$` prefix still attached; the payload is sliced and
UTF-8-decoded. -/
def RESPDecoder.decodeBulkString (buf : List Nat) : Except String (Option RVal) × List Nat :=
  match RESPDecoder.readLine buf with
  | (.error e, buf1) => (.error e, buf1)
  | (.ok none, buf1) => (.ok none, buf1)
  | (.ok (some line), buf1) =>
    match pyInt? line with
    | none => (.error "ValueError: invalid literal for int", buf1)
    | some length =>
      if length = -1 then (.ok none, buf1)
      else if (buf1.length : Int) < length + 2 then (.ok none, buf1)
      else
        let data := pySliceTo buf1 length
        let buf2 := pySliceFrom buf1 (length + 2)
        match utf8DecodeStr data with
        | some s => (.ok (some (RVal.pystr s)), buf2)
        | none => (.error "UnicodeDecodeError", buf2)

/-- Whether a character is Python `str.split()` whitespace. -/
def isPyWs (c : Char) : Bool :=
  (c == ' ') || (c == '\t') || (c == '\n') || (c == '\r') || (c == '\x0b') || (c == '\x0c')

/-- One-pass splitter behind `line.split()`: `cur` accumulates the current
word in reverse. -/
def splitWsAux : List Char → List Char → List (List Char)
  | [], cur => if cur.isEmpty then [] else [cur.reverse]
  | c :: rest, cur =>
    if isPyWs c then
      if cur.isEmpty then splitWsAux rest [] else cur.reverse :: splitWsAux rest []
    else splitWsAux rest (c :: cur)

/-- `line.split()`: split on runs of whitespace, dropping empty parts. -/
def splitWs (s : String) : List String :=
  (splitWsAux s.data []).map String.mk

/-- `RESPDecoder._decode_inline`: a whitespace-split command line; an empty
line yields `None`. -/
def RESPDecoder.decodeInline (buf : List Nat) : Except String (Option RVal) × List Nat :=
  match RESPDecoder.readLine buf with
  | (.error e, buf1) => (.error e, buf1)
  | (.ok none, buf1) => (.ok none, buf1)
  | (.ok (some line), buf1) =>
    if line = "" then (.ok none, buf1)
    else (.ok (some (RVal.pylist ((splitWs line).map RVal.pystr))), buf1)

mutual

/-- `RESPDecoder._decode_array`: `int(line)` on the count line with its `*`
prefix attached; `-1` yields `None`; otherwise the element loop runs.  The
fuel bounds the nesting depth of arrays (one unit per nested array); the
top-level entry point supplies more than the buffer length, which the
nesting depth can never reach. -/
def RESPDecoder.decodeArray (fuel : Nat) (buf : List Nat) :
    Except String (Option RVal) × List Nat :=
  match fuel with
  | 0 => (.error "fuel exhausted", buf)
  | f + 1 =>
    match RESPDecoder.readLine buf with
    | (.error e, buf1) => (.error e, buf1)
    | (.ok none, buf1) => (.ok none, buf1)
    | (.ok (some line), buf1) =>
      match pyInt? line with
      | none => (.error "ValueError: invalid literal for int", buf1)
      | some n =>
        if n = -1 then (.ok none, buf1)
        else RESPDecoder.decodeElems f line n.toNat buf1 []
termination_by (fuel, 0)

/-- The `for _ in range(num_elements)` loop of `_decode_array`, dispatching
on the next prefix byte.  `line` is the (shadowed) array count line used by
the `elem is None and line != "-1"` test; a `None` bulk element is appended
when that test passes. -/
def RESPDecoder.decodeElems (fuel : Nat) (line : String) (k : Nat) (buf : List Nat)
    (acc : List RVal) : Except String (Option RVal) × List Nat :=
  match k with
  | 0 => (.ok (some (RVal.pylist acc)), buf)
  | j + 1 =>
    match buf with
    | [] => (.ok none, buf)
    | b :: _ =>
      if b = 36 then
        match RESPDecoder.decodeBulkString buf with
        | (.error e, buf1) => (.error e, buf1)
        | (.ok oe, buf1) =>
          if oe.isNone ∧ line ≠ "-1" then (.ok none, buf1)
          else RESPDecoder.decodeElems fuel line j buf1 (acc ++ [oe.getD RVal.pynone])
      else if b = 43 then
        match RESPDecoder.decodeSimpleString buf with
        | (.error e, buf1) => (.error e, buf1)
        | (.ok none, buf1) => (.ok none, buf1)
        | (.ok (some e), buf1) => RESPDecoder.decodeElems fuel line j buf1 (acc ++ [e])
      else if b = 45 then
        match RESPDecoder.decodeError buf with
        | (.error e, buf1) => (.error e, buf1)
        | (.ok none, buf1) => (.ok none, buf1)
        | (.ok (some e), buf1) => RESPDecoder.decodeElems fuel line j buf1 (acc ++ [e])
      else if b = 58 then
        match RESPDecoder.decodeInteger buf with
        | (.error e, buf1) => (.error e, buf1)
        | (.ok none, buf1) => (.ok none, buf1)
        | (.ok (some e), buf1) => RESPDecoder.decodeElems fuel line j buf1 (acc ++ [e])
      else if b = 42 then
        match RESPDecoder.decodeArray fuel buf with
        | (.error e, buf1) => (.error e, buf1)
        | (.ok none, buf1) => (.ok none, buf1)
        | (.ok (some e), buf1) => RESPDecoder.decodeElems fuel line j buf1 (acc ++ [e])
      else
        (.error "ValueError: Unsupported RESP type in array", buf)
termination_by (fuel, k + 1)

end

/-- `RESPDecoder.decode`: dispatch on the first byte of the buffer; an empty
buffer is the need-more-bytes sentinel.  The result pairs the outcome
(frame, `None`, or exception) with the buffer the decoder object is left
holding. -/
def RESPDecoder.decode (buf : List Nat) : Except String (Option RVal) × List Nat :=
  match buf with
  | [] => (.ok none, [])
  | b :: _ =>
    if b = 42 then RESPDecoder.decodeArray (buf.length + 1) buf
    else if b = 36 then RESPDecoder.decodeBulkString buf
    else if b = 43 then RESPDecoder.decodeSimpleString buf
    else if b = 45 then RESPDecoder.decodeError buf
    else if b = 58 then RESPDecoder.decodeInteger buf
    else RESPDecoder.decodeInline buf

/-- `RESPDecoder.feed`: append to the internal buffer. -/
def RESPDecoder.feed (buf data : List Nat) : List Nat := buf ++ data

/-! ## server.py — command handlers

Keys and values are Python `str` (Lean `String`); timestamps are
millisecond integers; the reply is the raw protocol text sent on the
connection. -/

/-- `str.upper()` restricted to ASCII letters (the arguments compared are
`PX` / `GET` spellings). -/
def asciiUpper (s : String) : String :=
  String.mk (s.data.map (fun c => if 'a' ≤ c ∧ c ≤ 'z' then Char.ofNat (c.toNat - 32) else c))

/-- The global `data_store` / `expiry_store` pair. -/
structure ServerState where
  dataStore : List (String × String)
  expiryStore : List (String × Int)
deriving Repr, DecidableEq

/-- `handle_set_command`: upsert with optional `PX` expiry; the expiry entry
is written before the value, a `PX` parse failure changes nothing, and a
no-TTL write pops any prior expiry entry. -/
def handleSetCommand (now : Int) (args : List String) (st : ServerState) :
    ServerState × String :=
  if 2 ≤ args.length then
    let key := args.getD 0 ""
    let value := args.getD 1 ""
    if 2 < args.length then
      if asciiUpper (args.getD 2 "") ≠ "PX" then (st, "-ERR Invalid arguments for SET\r\n")
      else if 3 < args.length then
        match pyInt? (args.getD 3 "") with
        | some expiryTime =>
          let expiration := now + expiryTime
          (⟨pySet st.dataStore key value, pySet st.expiryStore key expiration⟩, "+OK\r\n")
        | none => (st, "-ERR PX value must be an integer\r\n")
      else (st, "-ERR PX value missing\r\n")
    else
      let expiry1 :=
        if (pyGet st.expiryStore key).isSome then pyPop st.expiryStore key else st.expiryStore
      (⟨pySet st.dataStore key value, expiry1⟩, "+OK\r\n")
  else (st, "-ERR Wrong number of arguments for SET\r\n")

/-- `handle_get_command`: lazy expiration, then lookup. -/
def handleGetCommand (now : Int) (args : List String) (st : ServerState) :
    ServerState × String :=
  if args.length = 1 then
    let key := args.getD 0 ""
    if (match pyGet st.expiryStore key with
        | some e => decide (e ≤ now)
        | none => false) then
      (⟨pyPop st.dataStore key, pyPop st.expiryStore key⟩, "$-1\r\n")
    else
      match pyGet st.dataStore key with
      | some value => (st, "$" ++ toString value.length ++ "\r\n" ++ value ++ "\r\n")
      | none => (st, "$-1\r\n")
  else (st, "-ERR Wrong number of arguments for GET\r\n")

/-- Character-class member test of `fnmatch.translate`: `a-b` ranges by code
point, other members literally. -/
def matchClassMembers : List Char → Char → Bool
  | a :: '-' :: b :: rest, c =>
    (decide (a ≤ c ∧ c ≤ b)) || matchClassMembers rest c
  | a :: rest, c => (a == c) || matchClassMembers rest c
  | [], _ => false

/-- Scan for the closing `]` of a character class. -/
def scanClassEnd : List Char → Option (List Char × List Char)
  | [] => none
  | ']' :: rest => some ([], rest)
  | c :: rest => (scanClassEnd rest).map (fun p => (c :: p.1, p.2))

/-- Split a character class following `[` per `fnmatch.translate`: optional
leading `!` negation, a `]` in first member position is literal, no closing
`]` means the `[` itself is literal (`none`). -/
def splitClass (ps : List Char) : Option (Bool × List Char × List Char) :=
  match ps with
  | '!' :: ']' :: t => (scanClassEnd t).map (fun p => (true, ']' :: p.1, p.2))
  | '!' :: qs => (scanClassEnd qs).map (fun p => (true, p.1, p.2))
  | ']' :: t => (scanClassEnd t).map (fun p => (false, ']' :: p.1, p.2))
  | qs => (scanClassEnd qs).map (fun p => (false, p.1, p.2))

/-- The glob matcher behind `fnmatch.fnmatch` (POSIX case behaviour): `*`,
`?`, character classes, literals.  Fuel bounds the call depth; each call
shrinks pattern-length plus name-length, so the entry point's fuel is always
sufficient. -/
def globMatch (fuel : Nat) (p s : List Char) : Bool :=
  match fuel with
  | 0 => false
  | f + 1 =>
    match p, s with
    | [], [] => true
    | [], _ :: _ => false
    | '*' :: ps, s =>
      globMatch f ps s ||
        (match s with
         | [] => false
         | _ :: s1 => globMatch f ('*' :: ps) s1)
    | '?' :: ps, s =>
      (match s with
       | [] => false
       | _ :: s1 => globMatch f ps s1)
    | '[' :: ps, s =>
      (match splitClass ps with
       | some (neg, members, rest) =>
         (match s with
          | [] => false
          | c :: s1 =>
            (if neg then ! matchClassMembers members c else matchClassMembers members c) &&
              globMatch f rest s1)
       | none =>
         (match s with
          | '[' :: s1 => globMatch f ps s1
          | _ => false))
    | pc :: ps, s =>
      (match s with
       | [] => false
       | c :: s1 => (pc == c) && globMatch f ps s1)

/-- `fnmatch.fnmatch(name, pattern)`. -/
def fnmatch (name pattern : String) : Bool :=
  globMatch (pattern.length + name.length + 1) pattern.data name.data

/-- The `matching_keys` list comprehension of `handle_keys_command`: all
data-store keys matching the pattern, with no expiry filtering. -/
def keysMatching (pattern : String) (st : ServerState) : List String :=
  (st.dataStore.map Prod.fst).filter (fun key => fnmatch key pattern)

/-- `handle_keys_command`: the RESP array of matching keys. -/
def handleKeysCommand (args : List String) (st : ServerState) : String :=
  if args.length ≠ 1 then "-ERR Wrong number of arguments for KEYS\r\n"
  else
    let pattern := args.getD 0 ""
    let matchingKeys := keysMatching pattern st
    "*" ++ toString matchingKeys.length ++ "\r\n" ++
      String.join (matchingKeys.map (fun key => "$" ++ toString key.length ++ "\r\n" ++ key ++ "\r\n"))

/-- A configuration value: the `config` dict holds strings, `None`s and the
integer `master_repl_offset`. -/
inductive ConfigVal where
  | vstr : String → ConfigVal
  | vint : Int → ConfigVal
  | vnone : ConfigVal
deriving Repr, DecidableEq

/-- The `config` dict as initialised at module load (server.py lines 18-26). -/
def initialConfig : List (String × ConfigVal) :=
  [("dir", .vstr "/tmp/redis-data"), ("dbfilename", .vstr "dump.rdb"),
   ("role", .vstr "master"), ("master_host", .vnone), ("master_port", .vnone),
   ("master_replid", .vnone), ("master_repl_offset", .vint 0)]

/-- Python `len(value)`: defined for `str`, a TypeError for `int` / `None`. -/
def pyLen : ConfigVal → Except String Nat
  | .vstr s => .ok s.length
  | .vint _ => .error "TypeError: object of type int has no len()"
  | .vnone => .error "TypeError: object of type NoneType has no len()"

/-- The f-string rendering of a configuration value (reached only after
`len` succeeded, i.e. for strings). -/
def configValRender : ConfigVal → String
  | .vstr s => s
  | .vint n => toString n
  | .vnone => "None"

/-- `handle_config_get_command`: syntax check, unknown-parameter error, and
the `[name, value]` array built with `len(param_value)` — which raises
TypeError for the int- and None-valued parameters. -/
def handleConfigGetCommand (args : List String) (config : List (String × ConfigVal)) :
    Except String String :=
  if args.length ≠ 2 ∨ asciiUpper (args.getD 0 "") ≠ "GET" then
    .ok "-ERR Invalid CONFIG GET syntax\r\n"
  else
    let param := args.getD 1 ""
    match pyGet config param with
    | none => .ok "-ERR Unknown configuration parameter\r\n"
    | some v => do
      let n ← pyLen v
      .ok ("*2\r\n$" ++ toString param.length ++ "\r\n" ++ param ++ "\r\n$" ++
        toString n ++ "\r\n" ++ configValRender v ++ "\r\n")

/-! ## Dictionary lemmas -/

theorem pyGet_pySet_self {α β : Type} [DecidableEq α] (d : List (α × β)) (k : α) (v : β) :
    pyGet (pySet d k v) k = some v := by
  induction d with
  | nil => simp [pySet, pyGet]
  | cons kv d ih =>
    obtain ⟨k', v'⟩ := kv
    by_cases h : k' = k <;> simp [pySet, pyGet, h, ih]

theorem pyGet_pySet_other {α β : Type} [DecidableEq α] (d : List (α × β)) (k k2 : α) (v : β)
    (h : k2 ≠ k) : pyGet (pySet d k v) k2 = pyGet d k2 := by
  have hne : k ≠ k2 := fun he => h he.symm
  induction d with
  | nil => simp [pySet, pyGet, hne]
  | cons kv d ih =>
    obtain ⟨k', v'⟩ := kv
    by_cases hk : k' = k
    · subst hk
      simp [pySet, pyGet, hne]
    · by_cases hk2 : k' = k2 <;> simp [pySet, pyGet, hk, hk2, h, ih]

theorem pyGet_pyPop_other {α β : Type} [DecidableEq α] (d : List (α × β)) (k k2 : α)
    (h : k2 ≠ k) : pyGet (pyPop d k) k2 = pyGet d k2 := by
  induction d with
  | nil => simp [pyPop, pyGet]
  | cons kv d ih =>
    obtain ⟨k', v'⟩ := kv
    by_cases hk : k' = k
    · subst hk
      have : ¬ k' = k2 := fun he => h he.symm
      simp [pyPop, pyGet, this]
    · by_cases hk2 : k' = k2 <;> simp [pyPop, pyGet, hk, hk2, h, ih]

theorem pyGet_none_of_not_mem {α β : Type} [DecidableEq α] (d : List (α × β)) (k : α)
    (h : k ∉ d.map Prod.fst) : pyGet d k = none := by
  induction d with
  | nil => rfl
  | cons kv d ih =>
    obtain ⟨k', v'⟩ := kv
    simp only [List.map_cons, List.mem_cons] at h
    push_neg at h
    have h1 : ¬ k' = k := fun he => h.1 he.symm
    simp [pyGet, h1, ih h.2]

theorem pyGet_pyPop_self {α β : Type} [DecidableEq α] (d : List (α × β)) (k : α)
    (h : (d.map Prod.fst).Nodup) : pyGet (pyPop d k) k = none := by
  induction d with
  | nil => rfl
  | cons kv d ih =>
    obtain ⟨k', v'⟩ := kv
    rw [List.map_cons, List.nodup_cons] at h
    by_cases hk : k' = k
    · subst hk
      simp [pyPop, pyGet_none_of_not_mem d k' h.1]
    · simp [pyPop, pyGet, hk, ih h.2]

/-! ## Claim theorems for the wire codec -/

/-- C3 evidence: the decoder is not streaming/restartable.  On the complete
bulk frame `$3\r\nabc\r\n` a decode attempt raises ValueError (the header
line, `$` prefix included, goes through `int()`), returning neither a frame
nor the sentinel, and the buffer has been advanced past the header.  Feeding
only the header `$3\r\n` likewise raises after consuming it, so feeding the
remaining bytes and decoding again parses `abc\r\n` as an inline command
frame instead of the bulk string — a different result than the claim's
whole-encoding decode. -/
theorem resp_decoder_not_restartable :
    RESPDecoder.decode [36, 51, 13, 10, 97, 98, 99, 13, 10] =
        (.error "ValueError: invalid literal for int", [97, 98, 99, 13, 10]) ∧
      RESPDecoder.decode [36, 51, 13, 10] =
        (.error "ValueError: invalid literal for int", []) ∧
      RESPDecoder.decode (RESPDecoder.feed [] [97, 98, 99, 13, 10]) =
        (.ok (some (RVal.pylist [RVal.pystr "abc"])), []) :=
  ⟨rfl, rfl, rfl⟩

/-- C4 evidence: decode of encode fails on representable frames.  For the
integer 5 the encoder emits `:5\r\n` but the decoder returns the
need-more-bytes sentinel `None` (the `int(":5")` ValueError is swallowed);
for the byte string `hey` the encoder emits `$3\r\nhey\r\n` and the decoder
raises ValueError outright.  In neither case does `decode(encode(F))` yield
`F`. -/
theorem resp_roundtrip_fails :
    RESPEncoder.encode (RVal.pyint 5) = .ok [58, 53, 13, 10] ∧
      RESPDecoder.decode [58, 53, 13, 10] = (.ok none, []) ∧
      RESPEncoder.encode (RVal.pystr "hey") = .ok [36, 51, 13, 10, 104, 101, 121, 13, 10] ∧
      RESPDecoder.decode [36, 51, 13, 10, 104, 101, 121, 13, 10] =
        (.error "ValueError: invalid literal for int", [104, 101, 121, 13, 10]) :=
  ⟨rfl, rfl, rfl, rfl⟩

/-- C6 evidence: bulk strings are not binary safe.  Decoding the frame
`$1\r\n` + 0xFF + `\r\n` raises ValueError (prefix byte inside `int()`),
and even entering `_decode_bulk_string` past the prefix, the payload byte
0xFF is passed to `bytes.decode()`, raising UnicodeDecodeError: the payload
is interpreted as UTF-8 text, never returned unchanged. -/
theorem resp_bulk_not_binary_safe :
    RESPDecoder.decode [36, 49, 13, 10, 255, 13, 10] =
        (.error "ValueError: invalid literal for int", [255, 13, 10]) ∧
      RESPDecoder.decodeBulkString [49, 13, 10, 255, 13, 10] =
        (.error "UnicodeDecodeError", []) :=
  ⟨rfl, rfl⟩

/-! ## Claim theorems for the command handlers -/

/-- C8: SET is an upsert.  Without a TTL the write stores the value, clears
any prior expiry entry for the key and replies `+OK`; with `PX t` for a
positive parsed `t` it stores the value and installs expiry `now_ms + t`.
Other keys are untouched in both shapes. -/
theorem set_command_contract (now : Int) (k v px s : String) (t : Int) (st : ServerState)
    (hnodupE : (st.expiryStore.map Prod.fst).Nodup) :
    ((handleSetCommand now [k, v] st).2 = "+OK\r\n" ∧
      pyGet (handleSetCommand now [k, v] st).1.dataStore k = some v ∧
      pyGet (handleSetCommand now [k, v] st).1.expiryStore k = none ∧
      ∀ k2, k2 ≠ k →
        pyGet (handleSetCommand now [k, v] st).1.dataStore k2 = pyGet st.dataStore k2 ∧
        pyGet (handleSetCommand now [k, v] st).1.expiryStore k2 = pyGet st.expiryStore k2) ∧
    (asciiUpper px = "PX" → pyInt? s = some t → 0 < t →
      (handleSetCommand now [k, v, px, s] st).2 = "+OK\r\n" ∧
      pyGet (handleSetCommand now [k, v, px, s] st).1.dataStore k = some v ∧
      pyGet (handleSetCommand now [k, v, px, s] st).1.expiryStore k = some (now + t) ∧
      ∀ k2, k2 ≠ k →
        pyGet (handleSetCommand now [k, v, px, s] st).1.dataStore k2 = pyGet st.dataStore k2 ∧
        pyGet (handleSetCommand now [k, v, px, s] st).1.expiryStore k2 =
          pyGet st.expiryStore k2) := by
  constructor
  · have hred : handleSetCommand now [k, v] st =
        (⟨pySet st.dataStore k v,
          if (pyGet st.expiryStore k).isSome then pyPop st.expiryStore k
          else st.expiryStore⟩, "+OK\r\n") := rfl
    rw [hred]
    refine ⟨rfl, pyGet_pySet_self _ _ _, ?_, ?_⟩
    · by_cases hs : (pyGet st.expiryStore k).isSome = true
      · rw [if_pos hs]
        exact pyGet_pyPop_self _ _ hnodupE
      · rw [if_neg hs]
        exact Option.not_isSome_iff_eq_none.mp hs
    · intro k2 hk2
      refine ⟨pyGet_pySet_other _ _ _ _ hk2, ?_⟩
      by_cases hs : (pyGet st.expiryStore k).isSome = true
      · rw [if_pos hs]
        exact pyGet_pyPop_other _ _ _ hk2
      · rw [if_neg hs]
  · intro hpx hparse _
    have hred : handleSetCommand now [k, v, px, s] st =
        (⟨pySet st.dataStore k v, pySet st.expiryStore k (now + t)⟩, "+OK\r\n") := by
      simp [handleSetCommand, hpx, hparse]
    rw [hred]
    exact ⟨rfl, pyGet_pySet_self _ _ _, pyGet_pySet_self _ _ _,
      fun k2 hk2 => ⟨pyGet_pySet_other _ _ _ _ hk2, pyGet_pySet_other _ _ _ _ hk2⟩⟩

/-- Witness for C8 at a concrete store: overwriting `a` without TTL clears
its prior expiry; setting with `PX 500` at `now_ms = 1000` installs expiry
1500. -/
theorem set_command_contract_witness :
    pyGet (handleSetCommand 1000 ["a", "b"] ⟨[("a", "old")], [("a", 5)]⟩).1.expiryStore "a" =
        none ∧
      pyGet (handleSetCommand 1000 ["a", "b"] ⟨[("a", "old")], [("a", 5)]⟩).1.dataStore "a" =
        some "b" ∧
      pyGet (handleSetCommand 1000 ["a", "b", "PX", "500"]
        ⟨[("a", "old")], [("a", 5)]⟩).1.expiryStore "a" = some 1500 := by
  have h := set_command_contract 1000 "a" "b" "PX" "500" 500
    ⟨[("a", "old")], [("a", 5)]⟩ (by decide)
  exact ⟨h.1.2.2.1, h.1.2.1, (h.2 rfl rfl (by decide)).2.2.1⟩

/-- C10: `SET key value PX t` with a non-positive parsed `t` is accepted
with `+OK`, installs the already-past expiration `now_ms + t`, and any GET
at a later-or-equal instant replies with the null bulk string while
evicting the key from both stores. -/
theorem set_px_nonpositive_get_null (now now2 : Int) (k v s : String) (t : Int)
    (st : ServerState) (hparse : pyInt? s = some t) (ht : t ≤ 0) (hmono : now ≤ now2) :
    (handleSetCommand now [k, v, "PX", s] st).2 = "+OK\r\n" ∧
      pyGet (handleSetCommand now [k, v, "PX", s] st).1.expiryStore k = some (now + t) ∧
      handleGetCommand now2 [k] (handleSetCommand now [k, v, "PX", s] st).1 =
        (⟨pyPop (handleSetCommand now [k, v, "PX", s] st).1.dataStore k,
          pyPop (handleSetCommand now [k, v, "PX", s] st).1.expiryStore k⟩, "$-1\r\n") := by
  have hred : handleSetCommand now [k, v, "PX", s] st =
      (⟨pySet st.dataStore k v, pySet st.expiryStore k (now + t)⟩, "+OK\r\n") := by
    simp [handleSetCommand, hparse, show asciiUpper "PX" = "PX" by decide]
  rw [hred]
  refine ⟨rfl, pyGet_pySet_self _ _ _, ?_⟩
  have hexp : now + t ≤ now2 := by omega
  simp [handleGetCommand, pyGet_pySet_self, hexp]

/-- Witness for C10: `SET a b PX -5` at `now_ms = 1000` is accepted,
installs expiry 995, and an immediate GET replies null and evicts. -/
theorem set_px_nonpositive_get_null_witness :
    (handleSetCommand 1000 ["a", "b", "PX", "-5"] ⟨[], []⟩).2 = "+OK\r\n" ∧
      pyGet (handleSetCommand 1000 ["a", "b", "PX", "-5"] ⟨[], []⟩).1.expiryStore "a" =
        some 995 ∧
      handleGetCommand 1000 ["a"] (handleSetCommand 1000 ["a", "b", "PX", "-5"] ⟨[], []⟩).1 =
        (⟨pyPop (handleSetCommand 1000 ["a", "b", "PX", "-5"] ⟨[], []⟩).1.dataStore "a",
          pyPop (handleSetCommand 1000 ["a", "b", "PX", "-5"] ⟨[], []⟩).1.expiryStore "a"⟩,
          "$-1\r\n") := by
  have h := set_px_nonpositive_get_null 1000 1000 "a" "b" "-5" (-5) ⟨[], []⟩ rfl
    (by decide) (by decide)
  exact ⟨h.1, h.2.1, h.2.2⟩

/-- C5 counterexample: with `data_store = {"k": "v"}`, `expiry_store =
{"k": 0}` and `now_ms = 100`, the key `k` is expired (`0 <= 100`) and still
physically present, yet `KEYS *` lists it: the handler never consults the
expiry store. -/
theorem keys_returns_expired_counterexample :
    "k" ∈ keysMatching "*" ⟨[("k", "v")], [("k", 0)]⟩ ∧
      pyGet (⟨[("k", "v")], [("k", 0)]⟩ : ServerState).expiryStore "k" = some 0 ∧
      ((0 : Int) ≤ 100) ∧
      handleKeysCommand ["*"] ⟨[("k", "v")], [("k", 0)]⟩ = "*1\r\n$1\r\nk\r\n" := by
  refine ⟨by decide, rfl, by decide, rfl⟩

/-- C5 (amended): GET never returns an expired key — whenever the expiry
entry is `<= now_ms` the reply is the null bulk string and the key is
evicted from both stores — but KEYS reports exactly the data-store keys
matching the glob pattern with no expiry filtering, so an expired key that
still physically remains does appear in the KEYS reply. -/
theorem expired_keys_get_null_keys_unfiltered (now : Int) (st : ServerState) (k : String)
    (e : Int) (p : String) :
    (pyGet st.expiryStore k = some e → e ≤ now →
      handleGetCommand now [k] st =
        (⟨pyPop st.dataStore k, pyPop st.expiryStore k⟩, "$-1\r\n")) ∧
    (∀ key, key ∈ keysMatching p st ↔
      key ∈ st.dataStore.map Prod.fst ∧ fnmatch key p = true) := by
  constructor
  · intro hget hle
    simp [handleGetCommand, hget, hle]
  · intro key
    simp [keysMatching, List.mem_filter]

/-- Witness for the amended C5 theorem: the expired key `k` is evicted by
GET with a null reply, and appears in the KEYS selection precisely because
it is a matching data-store key. -/
theorem expired_keys_get_null_keys_unfiltered_witness :
    handleGetCommand 100 ["k"] ⟨[("k", "v")], [("k", 0)]⟩ =
        (⟨pyPop [("k", "v")] "k", pyPop [("k", (0 : Int))] "k"⟩, "$-1\r\n") ∧
      ("k" ∈ keysMatching "*" ⟨[("k", "v")], [("k", 0)]⟩ ↔
        "k" ∈ ([("k", "v")] : List (String × String)).map Prod.fst ∧
          fnmatch "k" "*" = true) := by
  have h := expired_keys_get_null_keys_unfiltered 100 ⟨[("k", "v")], [("k", 0)]⟩ "k" 0 "*"
  exact ⟨h.1 rfl (by decide), h.2 "k"⟩

/-- C9 counterexample: `CONFIG GET master_repl_offset` on the initial
configuration (its value is the integer 0 in every role) raises TypeError
inside the handler — `len(param_value)` on an int — instead of replying
with a `[name, value]` array; `handle_client` catches the exception and
closes the connection. -/
theorem config_get_raises_counterexample :
    handleConfigGetCommand ["GET", "master_repl_offset"] initialConfig =
      .error "TypeError: object of type int has no len()" := rfl

/-- C9 (amended): for every recognized parameter whose configured value is a
string, `CONFIG GET` replies with the two-element array `[name, value]`;
for every unrecognized name it replies with the error `Unknown configuration
parameter`; parameters holding an int or `None` (master_repl_offset in every
role; master_host, master_port and master_replid depending on role) instead
raise TypeError. -/
theorem config_get_string_params (config : List (String × ConfigVal)) (param s : String) :
    (pyGet config param = some (ConfigVal.vstr s) →
      handleConfigGetCommand ["GET", param] config =
        .ok ("*2\r\n$" ++ toString param.length ++ "\r\n" ++ param ++ "\r\n$" ++
          toString s.length ++ "\r\n" ++ s ++ "\r\n")) ∧
    (pyGet config param = none →
      handleConfigGetCommand ["GET", param] config =
        .ok "-ERR Unknown configuration parameter\r\n") := by
  constructor <;> intro h <;>
    simp [handleConfigGetCommand, h, pyLen, configValRender, exOkBind,
      show asciiUpper "GET" = "GET" by decide]

/-- Witness for the amended C9 theorem: `CONFIG GET dir` replies with the
`[dir, /tmp/redis-data]` array and `CONFIG GET nope` with the
unknown-parameter error. -/
theorem config_get_string_params_witness :
    handleConfigGetCommand ["GET", "dir"] initialConfig =
        .ok ("*2\r\n$" ++ toString "dir".length ++ "\r\n" ++ "dir" ++ "\r\n$" ++
          toString "/tmp/redis-data".length ++ "\r\n" ++ "/tmp/redis-data" ++ "\r\n") ∧
      handleConfigGetCommand ["GET", "nope"] initialConfig =
        .ok "-ERR Unknown configuration parameter\r\n" := by
  exact ⟨(config_get_string_params initialConfig "dir" "/tmp/redis-data").1 (by decide),
    (config_get_string_params initialConfig "nope" "").2 (by decide)⟩
